import Mathlib

set_option autoImplicit false
set_option maxRecDepth 100000
set_option linter.unusedVariables false

namespace QuikScribe

/-! Shallow embedding of the worker-orchestration core of the repository:
`DockerContainerManager` (app/modules/google_meeting_bot/docker_container.py)
and the meeting-bot routes (app/modules/google_meeting_bot/routes.py).

External effects are parameters:
* the advisory host-port probe of `get_available_port` is a function
  `probe : Nat → Bool` (true = the socket connect failed, so the port looks
  free; false also covers the probe raising, which the code skips);
* `random.choice` over the candidate list is an arbitrary index `k`, reduced
  modulo the list length;
* `client.containers.run` is `launch : Nat → Option String` (container id on
  success, none = the engine raised);
* `client.containers.get(cid).status` is `inspect : String → Option String`
  (none = the docker NotFound exception);
* the combined `containers.get` + `container.stop` call of `stop_meeting_bot`
  is `stopOk : String → Bool` (false = either call raised, e.g. the container
  is already gone);
* the HTTP control call of the pause/resume routes is `resp : Option Nat`
  (HTTP status code, none = transport error or timeout).
-/

/-- Tracked information for one meeting bot, mirroring the dict built in
`DockerContainerManager.start_meeting_bot` plus the `docker_status` and
`running` keys that `get_meeting_bot_status` adds later (absent = `none` /
`false` initially). `started_at` (a wall-clock reading) is a `Nat` supplied by
the caller. -/
structure ContainerInfo where
  container_id : String
  container_name : String
  port : Nat
  meeting_uuid : String
  user_id : String
  meeting_url : String
  status : String
  started_at : Nat
  docker_status : Option String
  running : Bool
deriving DecidableEq

/-- In-memory state of `DockerContainerManager`: the claimed-port set
`used_ports` (a Python `set`) and `container_map` (a Python dict from container
id to tracked info, modelled as an association list; the operations keep keys
distinct). -/
structure Manager where
  used_ports : Finset Nat
  container_map : List (String × ContainerInfo)
deriving DecidableEq

/-- Dict update `container_map[cid] = info`: replaces any existing binding. -/
def mapSet (m : List (String × ContainerInfo)) (cid : String) (info : ContainerInfo) :
    List (String × ContainerInfo) :=
  (cid, info) :: m.filter (fun p => !(p.1 == cid))

/-- Dict deletion `del container_map[cid]`. -/
def mapDel (m : List (String × ContainerInfo)) (cid : String) :
    List (String × ContainerInfo) :=
  m.filter (fun p => !(p.1 == cid))

/-- The fixed configured inclusive port range `(3001, 3999)` set in
`DockerContainerManager.__init__`. -/
def port_range : Nat × Nat := (3001, 3999)

/-- The candidate list built by `get_available_port`: the ports of the
configured range (the Python loop runs over `range(3001, 3999 + 1)`) that are
not in `used_ports` and that the advisory host probe reports free. -/
def availablePorts (used : Finset Nat) (probe : Nat → Bool) : List Nat :=
  (List.range' port_range.1 (port_range.2 + 1 - port_range.1)).filter
    (fun p => decide (p ∉ used) && probe p)

/-- `get_available_port` acting on the claimed-port set: `none` models the
exception raised when no candidate exists; otherwise the chosen candidate
(`random.choice` = index `k mod length`) is added to `used_ports` and
returned. -/
def allocatePort (used : Finset Nat) (probe : Nat → Bool) (k : Nat) :
    Option (Nat × Finset Nat) :=
  let avail := availablePorts used probe
  if avail.isEmpty then none
  else
    let chosen := avail.getD (k % avail.length) 0
    some (chosen, insert chosen used)

/-- `DockerContainerManager.get_available_port` on the manager state. -/
def get_available_port (st : Manager) (probe : Nat → Bool) (k : Nat) :
    Option (Nat × Manager) :=
  (allocatePort st.used_ports probe k).map
    (fun r => (r.1, { st with used_ports := r.2 }))

/-- `DockerContainerManager.start_meeting_bot`. Result `(none, st2)` models the
re-raised exception: either `get_available_port` raised (no port was added) or
`containers.run` raised, in which case the code discards the freshly allocated
port from `used_ports` before re-raising. On success the container info is
stored in `container_map` under the new container id. -/
def start_meeting_bot (launch : Nat → Option String) (probe : Nat → Bool) (k : Nat)
    (st : Manager) (meeting_url user_id meeting_uuid : String) (duration now : Nat) :
    Option ContainerInfo × Manager :=
  match allocatePort st.used_ports probe k with
  | none => (none, st)
  | some (dynamic_port, used1) =>
    match launch dynamic_port with
    | none => (none, { st with used_ports := used1.erase dynamic_port })
    | some cid =>
      let info : ContainerInfo :=
        { container_id := cid
          container_name :=
            "meeting-bot-" ++ user_id ++ "-" ++ toString now ++ "-" ++ toString dynamic_port
          port := dynamic_port
          meeting_uuid := meeting_uuid
          user_id := user_id
          meeting_url := meeting_url
          status := "starting"
          started_at := now
          docker_status := none
          running := false }
      (some info, { used_ports := used1, container_map := mapSet st.container_map cid info })

/-- `DockerContainerManager.stop_meeting_bot`. Untracked id: logs and returns
`False`. Tracked id: `containers.get` + `container.stop` (oracle `stopOk`); on
success the port is discarded and the entry removed, returning `True`; if
either call raised (the except branch, e.g. the container is already gone) the
state is unchanged and the result is `False`. Never raises. -/
def stop_meeting_bot (stopOk : String → Bool) (st : Manager) (cid : String) :
    Bool × Manager :=
  match st.container_map.lookup cid with
  | none => (false, st)
  | some info =>
    if stopOk cid then
      (true, { used_ports := st.used_ports.erase info.port
               container_map := mapDel st.container_map cid })
    else
      (false, st)

/-- The status-mapping block of `get_meeting_bot_status`: docker status
`running` / `exited` / `created` map to `running` / `stopped` / `starting`,
and any other docker status leaves the recorded status unchanged. -/
def statusFromDocker (dockerStatus old : String) : String :=
  if dockerStatus = "running" then "running"
  else if dockerStatus = "exited" then "stopped"
  else if dockerStatus = "created" then "starting"
  else old

/-- `DockerContainerManager.get_meeting_bot_status`. Untracked id, or
`containers.get` raising (inspect = none): returns `None`, state unchanged.
Otherwise the tracked dict is updated in place (`docker_status`, `running`,
and `status` via `statusFromDocker`) and returned. -/
def get_meeting_bot_status (inspect : String → Option String) (st : Manager)
    (cid : String) : Option ContainerInfo × Manager :=
  match st.container_map.lookup cid with
  | none => (none, st)
  | some info =>
    match inspect cid with
    | none => (none, st)
    | some ds =>
      let info2 :=
        { info with
          docker_status := some ds
          running := ds == "running"
          status := statusFromDocker ds info.status }
      (some info2, { st with container_map := mapSet st.container_map cid info2 })

/-- The loop of `get_all_meeting_bots` over a snapshot of the tracked ids:
a fetched status is appended to the result; a `None` status deletes the entry
from `container_map` (without touching `used_ports`). -/
def getAllLoop (inspect : String → Option String) :
    List String → Manager → List ContainerInfo × Manager
  | [], st => ([], st)
  | cid :: rest, st =>
    match get_meeting_bot_status inspect st cid with
    | (some info, st1) =>
      let r := getAllLoop inspect rest st1
      (info :: r.1, r.2)
    | (none, st1) =>
      getAllLoop inspect rest { st1 with container_map := mapDel st1.container_map cid }

/-- `DockerContainerManager.get_all_meeting_bots`. -/
def get_all_meeting_bots (inspect : String → Option String) (st : Manager) :
    List ContainerInfo × Manager :=
  getAllLoop inspect (st.container_map.map Prod.fst) st

/-- The scan loop of `cleanup_dead_containers`: an entry whose docker status is
`exited`, or whose `containers.get` raised (inspect = none), is flagged dead
and its port discarded from the claimed set. -/
def cleanupScan (inspect : String → Option String) :
    List (String × ContainerInfo) → Finset Nat → List String × Finset Nat
  | [], used => ([], used)
  | p :: rest, used =>
    match inspect p.1 with
    | some ds =>
      if ds = "exited" then
        let r := cleanupScan inspect rest (used.erase p.2.port)
        (p.1 :: r.1, r.2)
      else
        cleanupScan inspect rest used
    | none =>
      let r := cleanupScan inspect rest (used.erase p.2.port)
      (p.1 :: r.1, r.2)

/-- The removal loop of `cleanup_dead_containers`: each flagged id is deleted
from the tracking map. -/
def removeAll : List (String × ContainerInfo) → List String → List (String × ContainerInfo)
  | m, [] => m
  | m, cid :: rest => removeAll (mapDel m cid) rest

/-- `DockerContainerManager.cleanup_dead_containers`: returns the number of
flagged entries and the state with their ports discarded and their tracking
entries removed. -/
def cleanup_dead_containers (inspect : String → Option String) (st : Manager) :
    Nat × Manager :=
  let r := cleanupScan inspect st.container_map st.used_ports
  (r.1.length, { used_ports := r.2, container_map := removeAll st.container_map r.1 })

/-- One row of `User_google_meeting_data` as the meeting routes use it:
identifier, owning user, optional container handle and port, and status. -/
structure MeetingRecord where
  id : String
  user_id : String
  container_id : Option String
  port : Option Nat
  status : String
deriving DecidableEq

/-- The query filter shared by the pause/resume/stop routes: row id equals the
path meeting id and the row belongs to the current user. -/
def meetingMatch (mid uid : String) (m : MeetingRecord) : Bool :=
  m.id == mid && m.user_id == uid

/-- `db.query(...).filter(id == meeting_id, user_id == current_user.id).first()`. -/
def findMeeting (db : List MeetingRecord) (mid uid : String) : Option MeetingRecord :=
  db.find? (meetingMatch mid uid)

/-- In-place mutation of the row the query returned: the first row matching the
predicate is replaced, every other row is untouched. -/
def updateFirst (p : MeetingRecord → Bool) (f : MeetingRecord → MeetingRecord) :
    List MeetingRecord → List MeetingRecord
  | [] => []
  | r :: rest => if p r then f r :: rest else r :: updateFirst p f rest

/-- Outcome of a meeting route: HTTP 200, 404 (meeting not found or not owned),
400 (no container handle recorded, "Meeting bot not running"), the 500 raised
when the control call fails or returns non-200, and the 500 raised when
`stop_meeting_bot` returns `False`. -/
inductive RouteResult where
  | ok
  | notFound
  | notRunning
  | ctrlFailed
  | stopFailed
deriving DecidableEq

/-- The `pause_meeting` route. A missing row is 404; a row with no container
handle is 400; with a handle, only an HTTP 200 from the control endpoint sets
the row status to `paused` and commits — any other response, or a transport
error or timeout (`resp = none`), is caught and re-raised as a 500 with the
database untouched. -/
def pause_meeting (resp : Option Nat) (db : List MeetingRecord) (mid uid : String) :
    RouteResult × List MeetingRecord :=
  match findMeeting db mid uid with
  | none => (.notFound, db)
  | some m =>
    match m.container_id with
    | none => (.notRunning, db)
    | some _ =>
      match resp with
      | none => (.ctrlFailed, db)
      | some code =>
        if code = 200 then
          (.ok, updateFirst (meetingMatch mid uid) (fun r => { r with status := "paused" }) db)
        else
          (.ctrlFailed, db)

/-- The `resume_meeting` route; identical to `pause_meeting` with target status
`running`. -/
def resume_meeting (resp : Option Nat) (db : List MeetingRecord) (mid uid : String) :
    RouteResult × List MeetingRecord :=
  match findMeeting db mid uid with
  | none => (.notFound, db)
  | some m =>
    match m.container_id with
    | none => (.notRunning, db)
    | some _ =>
      match resp with
      | none => (.ctrlFailed, db)
      | some code =>
        if code = 200 then
          (.ok, updateFirst (meetingMatch mid uid) (fun r => { r with status := "running" }) db)
        else
          (.ctrlFailed, db)

/-- The `stop_meeting` route. A missing row is 404; a row with no container
handle is 400; otherwise `stop_meeting_bot` runs, and on success the row gets
status `stopped` with its container handle and port cleared, while on failure
a 500 is raised with the database untouched. -/
def stop_meeting (stopOk : String → Bool) (db : List MeetingRecord) (mgr : Manager)
    (mid uid : String) : RouteResult × List MeetingRecord × Manager :=
  match findMeeting db mid uid with
  | none => (.notFound, db, mgr)
  | some m =>
    match m.container_id with
    | none => (.notRunning, db, mgr)
    | some cid =>
      let r := stop_meeting_bot stopOk mgr cid
      if r.1 then
        (.ok,
         updateFirst (meetingMatch mid uid)
           (fun x => { x with status := "stopped", container_id := none, port := none }) db,
         r.2)
      else
        (.stopFailed, db, r.2)

/-- The loop of the `get_user_meetings` route over the rows of the current
user: a row with a container handle gets its status and port overwritten from
`get_meeting_bot_status` whenever that returns a dict; other rows pass through
unchanged. -/
def reconcileUserMeetings (inspect : String → Option String) :
    List MeetingRecord → Manager → List MeetingRecord × Manager
  | [], mgr => ([], mgr)
  | m :: rest, mgr =>
    match m.container_id with
    | none =>
      let r := reconcileUserMeetings inspect rest mgr
      (m :: r.1, r.2)
    | some cid =>
      match get_meeting_bot_status inspect mgr cid with
      | (none, mgr1) =>
        let r := reconcileUserMeetings inspect rest mgr1
        (m :: r.1, r.2)
      | (some info, mgr1) =>
        let r := reconcileUserMeetings inspect rest mgr1
        ({ m with status := info.status, port := some info.port } :: r.1, r.2)

/-- The `get_user_meetings` route (`GET /my-meetings`): reconciles and returns
the rows of the current user. -/
def get_user_meetings (inspect : String → Option String) (db : List MeetingRecord)
    (mgr : Manager) (uid : String) : List MeetingRecord × Manager :=
  reconcileUserMeetings inspect (db.filter (fun m => m.user_id == uid)) mgr

/-! The Kubernetes job-spec builder `_build_job_spec`, embedded structurally:
only the fields the routes set are modelled, with the same names as the
`kubernetes.client` model classes. -/

/-- `V1EnvVar`. -/
structure EnvVar where
  name : String
  value : String
deriving DecidableEq

/-- `V1Probe` with an HTTP-get action, as both probes of the sidecar use. -/
structure Probe where
  path : String
  port : Nat
  initial_delay_seconds : Nat
  period_seconds : Nat
  timeout_seconds : Nat
  failure_threshold : Nat
deriving DecidableEq

/-- `V1ResourceRequirements`: requests and limits as name/quantity pairs. -/
structure ResourceRequirements where
  requests : List (String × String)
  limits : List (String × String)
deriving DecidableEq

/-- `V1Container`, restricted to the fields `_build_job_spec` sets. -/
structure Container where
  name : String
  image : String
  image_pull_policy : String
  command : List String
  env : List EnvVar
  ports : List Nat
  volume_mounts : List (String × String)
  startup_probe : Option Probe
  readiness_probe : Option Probe
  resources : Option ResourceRequirements
deriving DecidableEq

/-- `V1PodSpec` (volumes reduced to their names). -/
structure PodSpec where
  restart_policy : String
  containers : List Container
  volumes : List String
deriving DecidableEq

/-- `V1PodTemplateSpec` with its `V1ObjectMeta`. -/
structure PodTemplateSpec where
  name : String
  labels : List (String × String)
  annots : List (String × String)
  spec : PodSpec
deriving DecidableEq

/-- `V1Job` with its `V1JobSpec` and metadata. -/
structure Job where
  job_name : String
  job_labels : List (String × String)
  template : PodTemplateSpec
  backoff_limit : Nat
  ttl_seconds_after_finished : Nat
deriving DecidableEq

/-- `_build_job_spec(meeting_id, uuid_val, duration_min, record_type, image)`
from routes.py: the pod template with the worker container (delayed entry
point, env vars, mounts, resources) and the selenium sidecar (probes, port,
resources). -/
def _build_job_spec (meeting_id uuid_val : String) (duration_min : Nat)
    (record_type image : String) : Job :=
  let bot_env : List EnvVar :=
    [⟨"MEETING_ID", meeting_id⟩,
     ⟨"UUID", uuid_val⟩,
     ⟨"RECORD_TYPE", if record_type = "" then "VIDEO" else record_type⟩,
     ⟨"DURATION", toString duration_min⟩,
     ⟨"DYNAMIC_PORT", "3000"⟩,
     ⟨"DISPLAY", ":99.0"⟩,
     ⟨"SELENIUM_URL", "http://localhost:4444/wd/hub"⟩]
  let bot_container : Container :=
    { name := "worker"
      image := image
      image_pull_policy := "IfNotPresent"
      command := ["sh", "-lc", "sleep 12; exec bun run index.ts"]
      env := bot_env
      ports := []
      volume_mounts := [("x11-socket", "/tmp/.X11-unix"), ("segments", "/app/segments")]
      startup_probe := none
      readiness_probe := none
      resources := some
        { requests := [("cpu", "250m"), ("memory", "512Mi")]
          limits := [("cpu", "750m"), ("memory", "1.5Gi")] } }
  let selenium_container : Container :=
    { name := "selenium"
      image := "selenium/standalone-chrome:123.0"
      image_pull_policy := "IfNotPresent"
      command := []
      env := [⟨"SE_OPTS", "--session-timeout 300"⟩, ⟨"DISPLAY", ":99.0"⟩]
      ports := [4444]
      volume_mounts := [("x11-socket", "/tmp/.X11-unix")]
      startup_probe := some
        { path := "/status", port := 4444, initial_delay_seconds := 3
          period_seconds := 5, timeout_seconds := 3, failure_threshold := 24 }
      readiness_probe := some
        { path := "/status", port := 4444, initial_delay_seconds := 5
          period_seconds := 5, timeout_seconds := 3, failure_threshold := 6 }
      resources := some
        { requests := [("cpu", "500m"), ("memory", "512Mi")]
          limits := [("cpu", "1500m"), ("memory", "2Gi")] } }
  { job_name := "bot-job-" ++ uuid_val.take 8
    job_labels := [("app", "quikscribe-job-bot")]
    template :=
      { name := "bot-" ++ uuid_val.take 8
        labels := [("app", "quikscribe-job-bot")]
        annots := [("meeting/id", meeting_id), ("meeting/uuid", uuid_val)]
        spec :=
          { restart_policy := "Never"
            containers := [bot_container, selenium_container]
            volumes := ["x11-socket", "segments"] } }
    backoff_limit := 0
    ttl_seconds_after_finished := 1800 }

/-! Operation sequences over the claimed-port set. -/

/-- One operation on the claimed-port set: an allocation attempt (with its
probe and random index) or a release (`used_ports.discard`, as performed by
stop, cleanup and the launch failure path; a no-op on an unclaimed port). -/
inductive PortOp where
  | alloc (probe : Nat → Bool) (k : Nat)
  | release (p : Nat)

/-- Effect of one port operation on the claimed set (a failed allocation
leaves it unchanged). -/
def applyPortOp (used : Finset Nat) : PortOp → Finset Nat
  | .alloc probe k =>
    match allocatePort used probe k with
    | none => used
    | some r => r.2
  | .release p => used.erase p

/-- The claimed-port set after a sequence of operations, starting from the
empty set of `__init__`. -/
def runPortOps (ops : List PortOp) : Finset Nat :=
  ops.foldl applyPortOp ∅

/-- Every claimed port lies in the configured inclusive range. -/
def portsInRange (used : Finset Nat) : Prop :=
  ∀ q ∈ used, 3001 ≤ q ∧ q ≤ 3999

/-- The manager state after one successful launch from the initial state: the
engine accepts and returns container id `c1`; the random index 0 makes the
chosen port 3001. -/
def oneBotState : Manager :=
  (start_meeting_bot (fun _ => some "c1") (fun _ => true) 0
    { used_ports := ∅, container_map := [] }
    "https://meet.google.com/abc" "u1" "uu1" 60 0).2

theorem allocatePort_spec {used : Finset Nat} {probe : Nat → Bool} {k p : Nat}
    {used' : Finset Nat} (h : allocatePort used probe k = some (p, used')) :
    p ∈ availablePorts used probe ∧ 3001 ≤ p ∧ p ≤ 3999 ∧ p ∉ used ∧
      used' = insert p used := by
  simp only [allocatePort] at h
  by_cases he : (availablePorts used probe).isEmpty
  · simp [he] at h
  · rw [if_neg he] at h
    rw [Option.some.injEq, Prod.mk.injEq] at h
    obtain ⟨hp, hu⟩ := h
    have hlen : 0 < (availablePorts used probe).length := by
      cases hl : availablePorts used probe with
      | nil => rw [hl] at he; simp at he
      | cons a l => simp
    have hklt : k % (availablePorts used probe).length < (availablePorts used probe).length :=
      Nat.mod_lt _ hlen
    have hmem : p ∈ availablePorts used probe := by
      rw [← hp, List.getD_eq_getElem _ _ hklt]
      exact List.getElem_mem hklt
    have hmem2 : p ∈ (List.range' port_range.1 (port_range.2 + 1 - port_range.1)).filter
        (fun q => decide (q ∉ used) && probe q) := hmem
    obtain ⟨hrange, hcond⟩ := List.mem_filter.mp hmem2
    have hnot : p ∉ used := by
      have h1 := (Bool.and_eq_true _ _).mp hcond
      exact of_decide_eq_true h1.1
    have hr := List.mem_range'_1.mp hrange
    simp only [port_range] at hr
    refine ⟨hmem, hr.1, by omega, hnot, ?_⟩
    rw [← hu, hp]

theorem applyPortOp_inRange {used : Finset Nat} (op : PortOp) (h : portsInRange used) :
    portsInRange (applyPortOp used op) := by
  cases op with
  | alloc probe k =>
    simp only [applyPortOp]
    cases halloc : allocatePort used probe k with
    | none => exact h
    | some r =>
      obtain ⟨p, used'⟩ := r
      obtain ⟨-, h1, h2, -, h5⟩ := allocatePort_spec halloc
      intro q hq
      rw [h5] at hq
      rcases Finset.mem_insert.mp hq with rfl | hq
      · exact ⟨h1, h2⟩
      · exact h q hq
  | release p =>
    intro q hq
    exact h q (Finset.mem_of_mem_erase hq)

theorem foldl_portOps_inRange (ops : List PortOp) :
    ∀ (used : Finset Nat), portsInRange used →
      portsInRange (ops.foldl applyPortOp used) := by
  induction ops with
  | nil => intro used h; exact h
  | cons op rest ih =>
    intro used h
    exact ih (applyPortOp used op) (applyPortOp_inRange op h)

theorem portsInRange_card {used : Finset Nat} (h : portsInRange used) :
    used.card ≤ 999 := by
  have hsub : used ⊆ Finset.Icc 3001 3999 := fun q hq => Finset.mem_Icc.mpr (h q hq)
  have hcard := Finset.card_le_card hsub
  simpa [Nat.card_Icc] using hcard

/-- C2: a successful allocation returns a port of the fixed inclusive range
3001..3999 that is not currently claimed (it is one of the unclaimed probe
survivors, the candidate list the random choice draws from) and inserts it
into the claimed set in the same step; consequently, after any sequence of
allocate and release operations from the initial empty set, the claimed set —
a finite set, hence duplicate-free — contains only in-range ports and its
size never exceeds the range size 999. -/
theorem C2_allocate_in_range_unclaimed_bounded :
    (∀ (used : Finset Nat) (probe : Nat → Bool) (k p : Nat) (used' : Finset Nat),
        allocatePort used probe k = some (p, used') →
        3001 ≤ p ∧ p ≤ 3999 ∧ p ∉ used ∧ p ∈ availablePorts used probe ∧
          used' = insert p used) ∧
    (∀ ops : List PortOp, portsInRange (runPortOps ops) ∧ (runPortOps ops).card ≤ 999) := by
  constructor
  · intro used probe k p used' h
    obtain ⟨hmem, h1, h2, h4, h5⟩ := allocatePort_spec h
    exact ⟨h1, h2, h4, hmem, h5⟩
  · intro ops
    have hinv : portsInRange (runPortOps ops) :=
      foldl_portOps_inRange ops ∅ (by intro q hq; simp at hq)
    exact ⟨hinv, portsInRange_card hinv⟩

/-- Witness for C2 at a concrete input: from the empty claimed set, with an
all-true probe and random index 0, allocation returns 3001. -/
theorem C2_allocate_in_range_unclaimed_bounded_witness :
    3001 ≤ 3001 ∧ 3001 ≤ 3999 ∧ 3001 ∉ (∅ : Finset Nat) ∧
      3001 ∈ availablePorts ∅ (fun _ => true) ∧
      insert 3001 (∅ : Finset Nat) = insert 3001 ∅ :=
  C2_allocate_in_range_unclaimed_bounded.1 ∅ (fun _ => true) 0 3001
    (insert 3001 ∅) (by decide)

/-- C4: a launch attempt that fails — the port allocator raised, or the engine
rejected `containers.run` — leaves the claimed-port set and the tracking map
exactly as before the attempt (the freshly reserved port is discarded on the
failure path), and surfaces as the single re-raised exception, modelled by the
`none` result. -/
theorem C4_launch_failure_rolls_back (launch : Nat → Option String) (probe : Nat → Bool)
    (k : Nat) (st : Manager) (url uid uuid : String) (dur now : Nat) (st2 : Manager)
    (h : start_meeting_bot launch probe k st url uid uuid dur now = (none, st2)) :
    st2.used_ports = st.used_ports ∧ st2.container_map = st.container_map := by
  unfold start_meeting_bot at h
  cases halloc : allocatePort st.used_ports probe k with
  | none =>
    simp only [halloc, Prod.mk.injEq, true_and] at h
    rw [← h]
    exact ⟨rfl, rfl⟩
  | some r =>
    obtain ⟨p, u1⟩ := r
    simp only [halloc] at h
    cases hl : launch p with
    | some cid => simp [hl] at h
    | none =>
      simp only [hl, Prod.mk.injEq, true_and] at h
      rw [← h]
      refine ⟨?_, rfl⟩
      show u1.erase p = st.used_ports
      obtain ⟨-, -, -, hnot, hins⟩ := allocatePort_spec halloc
      rw [hins]
      exact Finset.erase_insert hnot

/-- Witness for C4 at a concrete input: the engine rejects every launch from
the initial state. -/
theorem C4_launch_failure_rolls_back_witness :
    ((start_meeting_bot (fun _ => none) (fun _ => true) 0
        { used_ports := ∅, container_map := [] } "m" "u1" "uu" 60 0).2.used_ports
      = (∅ : Finset Nat)) ∧
    ((start_meeting_bot (fun _ => none) (fun _ => true) 0
        { used_ports := ∅, container_map := [] } "m" "u1" "uu" 60 0).2.container_map
      = []) :=
  C4_launch_failure_rolls_back (fun _ => none) (fun _ => true) 0
    { used_ports := ∅, container_map := [] } "m" "u1" "uu" 60 0
    (start_meeting_bot (fun _ => none) (fun _ => true) 0
        { used_ports := ∅, container_map := [] } "m" "u1" "uu" 60 0).2
    (by decide)

/-- C1 (the code violates the claim): after one successful launch the worker
holds port 3001; a list-driven reconciliation pass that finds the backend
resource gone removes the worker from tracking, yet 3001 is still in the
claimed-port set afterwards — the port of a terminal, untracked worker is
released zero times. -/
theorem C1_list_reconciliation_leaks_port :
    3001 ∈ oneBotState.used_ports ∧
    (get_all_meeting_bots (fun _ => none) oneBotState).2.container_map = [] ∧
    3001 ∈ (get_all_meeting_bots (fun _ => none) oneBotState).2.used_ports := by
  decide

/-- A database row for the worker of `oneBotState`, as the start route stores
it (status `starting`, container handle and port recorded). -/
def rowM1 : MeetingRecord :=
  { id := "m1", user_id := "u1", container_id := some "c1", port := some 3001,
    status := "starting" }

/-- A database row whose recorded status is the terminal `stopped` while the
container handle is still recorded — the state a list reconciliation leaves
behind after observing the backend resource exited. -/
def rowStopped : MeetingRecord :=
  { id := "m1", user_id := "u1", container_id := some "c1", port := some 3001,
    status := "stopped" }

/-- C3 counterexample: for the tracked worker of `oneBotState` (never
explicitly stopped, still `starting`), a backend report of `exited` makes
reconciliation record the status string `stopped` — the same status an
explicit stop writes — not a distinct `failed` status; no code path ever
writes `failed`. -/
theorem C3_cex_exited_maps_to_stopped :
    ((get_meeting_bot_status (fun _ => some "exited") oneBotState "c1").1.map
        ContainerInfo.status) = some "stopped" ∧ ("stopped" : String) ≠ "failed" := by
  decide

/-- C3 amended: reconciliation maps the backend state onto the recorded status
as `running` to `running`, `exited` to `stopped` (regardless of any earlier
explicit stop), `created` to `starting`, any other backend state leaving the
status unchanged; a resource unknown to the backend produces no status write
at all — the status fetch returns nothing and the state is untouched. -/
theorem C3_amended_status_mapping :
    (∀ s, statusFromDocker "running" s = "running") ∧
    (∀ s, statusFromDocker "exited" s = "stopped") ∧
    (∀ s, statusFromDocker "created" s = "starting") ∧
    (∀ (inspect : String → Option String) (st : Manager) (cid : String)
        (info info' : ContainerInfo) (st2 : Manager),
      st.container_map.lookup cid = some info →
      get_meeting_bot_status inspect st cid = (some info', st2) →
      ∃ ds, inspect cid = some ds ∧ info'.status = statusFromDocker ds info.status) ∧
    (∀ (inspect : String → Option String) (st : Manager) (cid : String),
      inspect cid = none → get_meeting_bot_status inspect st cid = (none, st)) := by
  refine ⟨fun s => rfl, fun s => rfl, fun s => rfl, ?_, ?_⟩
  · intro inspect st cid info info' st2 hlook hget
    simp only [get_meeting_bot_status, hlook] at hget
    cases hins : inspect cid with
    | none => simp [hins] at hget
    | some ds =>
      simp only [hins, Prod.mk.injEq, Option.some.injEq] at hget
      refine ⟨ds, rfl, ?_⟩
      rw [← hget.1]
  · intro inspect st cid hins
    unfold get_meeting_bot_status
    cases hlook : st.container_map.lookup cid with
    | none => rfl
    | some info => rw [hins]

/-- Witness for C3 amended at a concrete input: the backend does not know the
tracked container, so the status fetch returns nothing and changes nothing. -/
theorem C3_amended_status_mapping_witness :
    get_meeting_bot_status (fun _ => none) oneBotState "c1" = (none, oneBotState) :=
  C3_amended_status_mapping.2.2.2.2 (fun _ => none) oneBotState "c1" rfl

/-- C5 counterexample: a first list reconciliation sees the backend resource
exited and records the terminal status `stopped` (handle still recorded); a
second list reconciliation sees the backend report `running` and overwrites
the terminal status with the non-terminal `running` — the later non-terminal
write is not discarded. -/
theorem C5_cex_terminal_status_overwritten :
    ((get_user_meetings (fun _ => some "exited") [rowM1] oneBotState "u1").1.map
        MeetingRecord.status = ["stopped"]) ∧
    (((get_user_meetings (fun _ => some "running")
        (get_user_meetings (fun _ => some "exited") [rowM1] oneBotState "u1").1
        (get_user_meetings (fun _ => some "exited") [rowM1] oneBotState "u1").2
        "u1").1.map MeetingRecord.status) = ["running"]) := by
  decide

/-- C5 amended: the list reconciliation loop never touches a row whose
container handle is cleared — which is the state an explicit stop leaves — so
such rows keep their status; but a terminal status recorded while the handle
is still set is not sticky and is overwritten by a later non-terminal backend
report, as the counterexample shows. -/
theorem C5_amended_cleared_handle_rows_unchanged :
    ∀ (inspect : String → Option String) (ms : List MeetingRecord) (mgr : Manager),
      List.Forall₂ (fun a b => a.container_id = none → b = a) ms
        (reconcileUserMeetings inspect ms mgr).1 := by
  intro inspect ms
  induction ms with
  | nil => intro mgr; exact List.Forall₂.nil
  | cons m rest ih =>
    intro mgr
    cases hc : m.container_id with
    | none =>
      simp only [reconcileUserMeetings, hc]
      exact List.Forall₂.cons (fun _ => rfl) (ih mgr)
    | some cid =>
      simp only [reconcileUserMeetings, hc]
      cases hg : get_meeting_bot_status inspect mgr cid with
      | mk o mgr1 =>
        cases o with
        | none =>
          exact List.Forall₂.cons (fun h => Option.noConfusion (hc.symm.trans h)) (ih mgr1)
        | some info =>
          exact List.Forall₂.cons (fun h => Option.noConfusion (hc.symm.trans h)) (ih mgr1)

/-- Witness for C5 amended at a concrete input: one row with a cleared
handle passes through reconciliation unchanged. -/
theorem C5_amended_witness :
    List.Forall₂ (fun a b => a.container_id = none → b = a)
      [{ id := "m1", user_id := "u1", container_id := none, port := none,
         status := "stopped" }]
      (reconcileUserMeetings (fun _ => none)
        [{ id := "m1", user_id := "u1", container_id := none, port := none,
           status := "stopped" }] { used_ports := ∅, container_map := [] }).1 :=
  C5_amended_cleared_handle_rows_unchanged (fun _ => none)
    [{ id := "m1", user_id := "u1", container_id := none, port := none,
       status := "stopped" }] { used_ports := ∅, container_map := [] }

/-- C6 counterexample: stopping the tracked worker of `oneBotState` when its
backend resource is already gone — `containers.get` raises NotFound, modelled
by the stop oracle returning false — yields `False` (failure), not success,
and leaves the port claimed and the entry tracked. -/
theorem C6_cex_already_gone_returns_false :
    stop_meeting_bot (fun _ => false) oneBotState "c1" = (false, oneBotState) := by
  decide

/-- C6 amended: the backend stop operation returns a success/failure boolean
in every case and never lets an exception escape, but an already-gone backend
resource (or any failing engine call) is reported as failure `False` with the
claimed-port set and tracking map left untouched, not treated as success. -/
theorem C6_amended_stop_returns_bool_gone_is_failure :
    ∀ (stopOk : String → Bool) (st : Manager) (cid : String),
      stopOk cid = false ∨ st.container_map.lookup cid = none →
      stop_meeting_bot stopOk st cid = (false, st) := by
  intro stopOk st cid h
  unfold stop_meeting_bot
  cases hlook : st.container_map.lookup cid with
  | none => rfl
  | some info =>
    rcases h with h | h
    · simp [h]
    · rw [h] at hlook; cases hlook

/-- Witness for C6 amended at a concrete input. -/
theorem C6_amended_witness :
    stop_meeting_bot (fun _ => false) { used_ports := ∅, container_map := [] } "cX"
      = (false, { used_ports := ∅, container_map := [] }) :=
  C6_amended_stop_returns_bool_gone_is_failure (fun _ => false)
    { used_ports := ∅, container_map := [] } "cX" (Or.inl rfl)

/-- C7 counterexample: a stop request for a worker whose recorded status is
already the terminal `stopped` but whose container handle is still recorded
(the state reconciliation leaves after seeing the resource exited) is not
rejected with an already-terminal error: the route attempts the backend stop
and, when the engine call succeeds, returns HTTP 200. -/
theorem C7_cex_stop_on_stopped_succeeds :
    rowStopped.status = "stopped" ∧
    (stop_meeting (fun _ => true) [rowStopped] oneBotState "m1" "u1").1
      = RouteResult.ok := by
  decide

/-- C7 amended: a stop request for a nonexistent or not-owned meeting id fails
with 404 NotFound and changes nothing; a stop request for a worker whose
container handle is cleared — the state a successful explicit stop leaves, so
a second stop of the same worker lands here — fails with the 400 "Meeting bot
not running" error and is idempotent in effect: no state change and no second
port release. The gate is the cleared handle, not the terminal status, so a
worker recorded `stopped` with its handle still set is stopped again rather
than rejected. -/
theorem C7_amended_notfound_and_cleared_handle :
    ∀ (stopOk : String → Bool) (db : List MeetingRecord) (mgr : Manager)
      (mid uid : String),
      (findMeeting db mid uid = none →
        stop_meeting stopOk db mgr mid uid = (.notFound, db, mgr)) ∧
      (∀ m, findMeeting db mid uid = some m → m.container_id = none →
        stop_meeting stopOk db mgr mid uid = (.notRunning, db, mgr)) := by
  intro stopOk db mgr mid uid
  constructor
  · intro h
    unfold stop_meeting
    rw [h]
  · intro m hfind hc
    unfold stop_meeting
    rw [hfind]
    simp only [hc]

/-- Witness for C7 amended at a concrete input: stopping an unknown meeting id
on an empty database is a 404 leaving everything unchanged. -/
theorem C7_amended_witness :
    stop_meeting (fun _ => true) [] { used_ports := ∅, container_map := [] } "mX" "uX"
      = (.notFound, [], { used_ports := ∅, container_map := [] }) :=
  (C7_amended_notfound_and_cleared_handle (fun _ => true) []
    { used_ports := ∅, container_map := [] } "mX" "uX").1 rfl

/-- The dead test of the cleanup scan, as a predicate on one tracking entry:
the backend reports the container exited, or the lookup raised NotFound. -/
def deadFlag (inspect : String → Option String) (p : String × ContainerInfo) : Bool :=
  match inspect p.1 with
  | some ds => decide (ds = "exited")
  | none => true

theorem cleanupScan_fst (inspect : String → Option String) :
    ∀ (l : List (String × ContainerInfo)) (used : Finset Nat),
      (cleanupScan inspect l used).1 = (l.filter (deadFlag inspect)).map Prod.fst := by
  intro l
  induction l with
  | nil => intro used; rfl
  | cons p rest ih =>
    intro used
    cases hins : inspect p.1 with
    | none =>
      simp only [cleanupScan, hins, List.filter_cons, deadFlag, if_pos, List.map_cons]
      exact congrArg (List.cons p.1) (ih _)
    | some ds =>
      by_cases hds : ds = "exited"
      · simp only [cleanupScan, hins, hds, List.filter_cons, deadFlag, List.map_cons,
          if_pos, decide_True, if_true]
        exact congrArg (List.cons p.1) (ih _)
      · simp only [cleanupScan, hins, List.filter_cons, deadFlag]
        rw [if_neg hds]
        simp only [hds, decide_False, Bool.false_eq_true, if_false]
        exact ih _

theorem removeAll_eq_filter :
    ∀ (ks : List String) (m : List (String × ContainerInfo)),
      removeAll m ks = m.filter (fun p => decide (p.1 ∉ ks)) := by
  intro ks
  induction ks with
  | nil =>
    intro m
    simp [removeAll]
  | cons k rest ih =>
    intro m
    simp only [removeAll]
    rw [ih]
    simp only [mapDel]
    rw [List.filter_filter]
    apply List.filter_congr
    intro x hx
    by_cases hk : x.1 = k
    · simp [hk]
    · by_cases hrest : x.1 ∈ rest
      · simp [hk, hrest]
      · simp [hk, hrest]

/-- C8 counterexample: for the single tracked worker of `oneBotState`, when
the backend confirms the container present in state `exited` — so zero registry
entries have an absent backend resource — cleanup nevertheless removes the
entry and returns count 1, not 0. -/
theorem C8_cex_exited_but_present_counted :
    (cleanup_dead_containers (fun _ => some "exited") oneBotState).1 = 1 ∧
    (oneBotState.container_map.all
        (fun p => ((fun _ : String => some "exited") p.1).isSome)) = true ∧
    (cleanup_dead_containers (fun _ => some "exited") oneBotState).2.container_map
      = [] := by
  decide

/-- C8 amended: a cleanup call removes from the registry exactly the entries
whose backend resource was confirmed absent or was reported `exited` at call
time (releasing their ports), and returns a count equal to the number of such
entries. -/
theorem C8_amended_cleanup_count_and_removal :
    ∀ (inspect : String → Option String) (st : Manager),
      (cleanup_dead_containers inspect st).1
        = (st.container_map.filter (deadFlag inspect)).length ∧
      ((st.container_map.map Prod.fst).Nodup →
        (cleanup_dead_containers inspect st).2.container_map
          = st.container_map.filter (fun p => !(deadFlag inspect p))) := by
  intro inspect st
  constructor
  · show (cleanupScan inspect st.container_map st.used_ports).1.length = _
    rw [cleanupScan_fst]
    exact List.length_map _ _
  · intro hnodup
    show removeAll st.container_map
        (cleanupScan inspect st.container_map st.used_ports).1 = _
    rw [cleanupScan_fst, removeAll_eq_filter]
    apply List.filter_congr
    intro x hx
    by_cases hd : deadFlag inspect x = true
    · have hmem : x.1 ∈ (st.container_map.filter (deadFlag inspect)).map Prod.fst :=
        List.mem_map.mpr ⟨x, List.mem_filter.mpr ⟨hx, hd⟩, rfl⟩
      simp [hmem, hd]
    · have hnmem : x.1 ∉ (st.container_map.filter (deadFlag inspect)).map Prod.fst := by
        intro hmem
        obtain ⟨y, hy, hyx⟩ := List.mem_map.mp hmem
        obtain ⟨hym, hyd⟩ := List.mem_filter.mp hy
        have hxy : y = x := List.inj_on_of_nodup_map hnodup hym hx hyx
        rw [hxy] at hyd
        exact hd hyd
      simp only [Bool.not_eq_true] at hd
      simp [hnmem, hd]

/-- Witness for C8 amended at a concrete input: with the backend unaware of
the tracked container, the count is the number of flagged entries and the
entry is removed. -/
theorem C8_amended_witness :
    ((cleanup_dead_containers (fun _ => none) oneBotState).1
      = (oneBotState.container_map.filter (deadFlag (fun _ => none))).length) ∧
    ((cleanup_dead_containers (fun _ => none) oneBotState).2.container_map
      = oneBotState.container_map.filter (fun p => !(deadFlag (fun _ => none) p))) :=
  ⟨(C8_amended_cleanup_count_and_removal (fun _ => none) oneBotState).1,
   (C8_amended_cleanup_count_and_removal (fun _ => none) oneBotState).2 (by decide)⟩

/-- C9: for a pause or resume request on an owned meeting with a recorded
container handle, a transport error or timeout (no response) or any non-200
response code yields the 500 control failure with the database — in particular
the recorded status — unchanged; only a 200 response updates the status to the
target of the action, `paused` for pause and `running` for resume. -/
theorem C9_control_failure_leaves_status :
    ∀ (resp : Option Nat) (db : List MeetingRecord) (mid uid : String)
      (m : MeetingRecord),
      findMeeting db mid uid = some m → m.container_id ≠ none →
      ((resp ≠ some 200 →
          pause_meeting resp db mid uid = (.ctrlFailed, db) ∧
          resume_meeting resp db mid uid = (.ctrlFailed, db)) ∧
       (pause_meeting (some 200) db mid uid
          = (.ok, updateFirst (meetingMatch mid uid)
              (fun r => { r with status := "paused" }) db) ∧
        resume_meeting (some 200) db mid uid
          = (.ok, updateFirst (meetingMatch mid uid)
              (fun r => { r with status := "running" }) db))) := by
  intro resp db mid uid m hfind hc
  obtain ⟨cid, hcid⟩ := Option.ne_none_iff_exists'.mp hc
  constructor
  · intro hresp
    constructor
    · cases resp with
      | none => simp only [pause_meeting, hfind, hcid]
      | some code =>
        have hne : ¬ code = 200 := fun h200 => hresp (by rw [h200])
        simp only [pause_meeting, hfind, hcid]
        rw [if_neg hne]
    · cases resp with
      | none => simp only [resume_meeting, hfind, hcid]
      | some code =>
        have hne : ¬ code = 200 := fun h200 => hresp (by rw [h200])
        simp only [resume_meeting, hfind, hcid]
        rw [if_neg hne]
  · constructor
    · simp only [pause_meeting, hfind, hcid]
      simp
    · simp only [resume_meeting, hfind, hcid]
      simp

/-- Witness for C9 at a concrete input: a timeout on a pause of the tracked
meeting is a 500 leaving the row unchanged, and a 200 flips the status. -/
theorem C9_witness :
    (pause_meeting none [rowM1] "m1" "u1" = (.ctrlFailed, [rowM1]) ∧
     resume_meeting none [rowM1] "m1" "u1" = (.ctrlFailed, [rowM1])) ∧
    (pause_meeting (some 200) [rowM1] "m1" "u1"
       = (.ok, updateFirst (meetingMatch "m1" "u1")
           (fun r => { r with status := "paused" }) [rowM1]) ∧
     resume_meeting (some 200) [rowM1] "m1" "u1"
       = (.ok, updateFirst (meetingMatch "m1" "u1")
           (fun r => { r with status := "running" }) [rowM1])) :=
  ⟨(C9_control_failure_leaves_status none [rowM1] "m1" "u1" rowM1 (by decide)
      (by decide)).1 (by decide),
   (C9_control_failure_leaves_status none [rowM1] "m1" "u1" rowM1 (by decide)
      (by decide)).2⟩

/-- A concrete constructed job spec. -/
def sampleJob : Job :=
  _build_job_spec "meet-1" "0123456789ab" 5 "VIDEO" "img:latest"

/-- C10 counterexample: in a concrete constructed job spec the worker env
names are MEETING_ID, UUID, RECORD_TYPE, DURATION, DYNAMIC_PORT, DISPLAY and
SELENIUM_URL — no owner or user id variable, unlike the local variant which
passes USER_ID — and DYNAMIC_PORT is the fixed string 3000, not an allocated
port. -/
theorem C10_cex_no_owner_env_fixed_port :
    (sampleJob.template.spec.containers.map (fun c => c.env.map EnvVar.name))
      = [["MEETING_ID", "UUID", "RECORD_TYPE", "DURATION", "DYNAMIC_PORT",
          "DISPLAY", "SELENIUM_URL"], ["SE_OPTS", "DISPLAY"]] ∧
    ("USER_ID" ∉ ["MEETING_ID", "UUID", "RECORD_TYPE", "DURATION", "DYNAMIC_PORT",
        "DISPLAY", "SELENIUM_URL"]) ∧
    (sampleJob.template.spec.containers.head?.map (fun c =>
          c.env.filter (fun e => e.name == "DYNAMIC_PORT")))
      = some [⟨"DYNAMIC_PORT", "3000"⟩] := by
  decide

/-- C10 amended: every constructed batch-job specification has a pod template
with exactly two containers — the worker and the selenium browser-automation
sidecar — where the sidecar carries startup and readiness probes, the worker
entry point sleeps 12 seconds before exec to wait for the sidecar, resource
requests and limits are attached to each container, and the worker env carries
the meeting id, the correlation uuid, the record type, the duration, and a
fixed port 3000 — but no owner id variable and no per-worker allocated port. -/
theorem C10_amended_job_spec_shape :
    ∀ (mid uu : String) (dur : Nat) (rt img : String),
      ((_build_job_spec mid uu dur rt img).template.spec.containers.map Container.name
        = ["worker", "selenium"]) ∧
      ((_build_job_spec mid uu dur rt img).template.spec.containers.all
        (fun c => c.resources.isSome) = true) ∧
      ((_build_job_spec mid uu dur rt img).template.spec.containers.head?.map
          Container.command
        = some ["sh", "-lc", "sleep 12; exec bun run index.ts"]) ∧
      ((_build_job_spec mid uu dur rt img).template.spec.containers.getLast?.map
          (fun c => (c.startup_probe.isSome, c.readiness_probe.isSome))
        = some (true, true)) ∧
      ((_build_job_spec mid uu dur rt img).template.spec.containers.head?.map
          (fun c => c.env.map (fun e => (e.name, e.value)))
        = some [("MEETING_ID", mid), ("UUID", uu),
                ("RECORD_TYPE", if rt = "" then "VIDEO" else rt),
                ("DURATION", toString dur), ("DYNAMIC_PORT", "3000"),
                ("DISPLAY", ":99.0"),
                ("SELENIUM_URL", "http://localhost:4444/wd/hub")]) ∧
      ((_build_job_spec mid uu dur rt img).template.spec.containers.head?.map
          (fun c => c.env.all (fun e => !(e.name == "USER_ID")))
        = some true) := by
  intro mid uu dur rt img
  exact ⟨rfl, rfl, rfl, rfl, rfl, rfl⟩

end QuikScribe
